import Mathlib

/-!
Shallow embedding of `src/NFTBidQuery.py` (OpenSea NFT watcher).

Conventions of the embedding:
* Python floats are modelled as `ℚ`; wei amounts are `ℕ`; bid counts are `ℤ`.
* Python `None` becomes `Option.none`.
* The database is modelled by the only row `save_data` ever reads: the most
  recent snapshot per collection (`Option Snapshot`), since rows are
  append-only and only the latest row is consulted.
* Database failures are injected through `DbMode`: `readFail` makes the
  SELECT raise, `insertFail` makes the INSERT raise; either exception is
  caught by the `except` block at line 121 of the source.
* A Python `TypeError` (subtracting `None` from a float at lines 91-92) is
  modelled by `decChanged` returning `none`; it is caught by the same
  `except` block.
-/

/-- `wei_to_weth(wei_value, decimals=18)` (line 127): `int(wei_value) / (10 ** decimals)`. -/
def weiToWeth (weiValue : ℕ) (decimals : ℕ := 18) : ℚ :=
  (weiValue : ℚ) / (10 : ℚ) ^ decimals

/-- One offer as consumed by `get_highest_single_bid_and_count` (lines 152-154):
`startAmount` is `offer["protocol_data"]["parameters"]["offer"][0]["startAmount"]` (wei),
`considerationCount` is `offer["protocol_data"]["parameters"]["consideration"][0]["startAmount"]`. -/
structure Offer where
  startAmount : ℕ
  considerationCount : ℕ
deriving DecidableEq

/-- Lines 156-157: `single_bid_value = total_weth_value / bid_count if bid_count > 0 else total_weth_value`. -/
def perItemBid (o : Offer) : ℚ :=
  let totalWethValue := weiToWeth o.startAmount
  if 0 < o.considerationCount then totalWethValue / (o.considerationCount : ℚ)
  else totalWethValue

/-- Lines 159-161: update `(highest_single_bid_value, num_bids)` when the current
offer's per-item value strictly exceeds the best seen so far. -/
def bidStep (acc : ℚ × ℕ) (o : Offer) : ℚ × ℕ :=
  if acc.1 < perItemBid o then (perItemBid o, o.considerationCount) else acc

/-- `get_highest_single_bid_and_count` (lines 135-167), with the HTTP response
abstracted into its status code and parsed offer list.  Non-200 status (line 139)
and an empty offer list (line 144) both yield `(None, 0)`; otherwise the fold of
lines 148-163 starting from `(0, 0)` runs and its result is returned. -/
def getHighestSingleBidAndCount (statusCode : ℕ) (offersData : List Offer) :
    Option ℚ × ℕ :=
  if statusCode ≠ 200 then (none, 0)
  else if offersData = [] then (none, 0)
  else
    let acc := offersData.foldl bidStep (0, 0)
    (some acc.1, acc.2)

/-- Lines 184-190: one listing's contribution to the floor.  A listing whose
`price.current.value` is absent (falsy) is skipped; otherwise the minimum
normalized price is retained. -/
def floorStep (fp : Option ℚ) (priceWei : Option ℕ) : Option ℚ :=
  match priceWei with
  | none => fp
  | some w =>
    let priceWeth := weiToWeth w
    match fp with
    | none => some priceWeth
    | some f => if priceWeth < f then some priceWeth else some f

/-- `get_floor_price` (lines 170-196), with the HTTP response abstracted into its
status code and the per-listing optional wei prices.  Non-200 status (line 174)
and an empty listing list (line 179) yield `None`; otherwise the minimum over the
usable prices (or `None` when there is none) is returned. -/
def getFloorPrice (statusCode : ℕ) (listingsData : List (Option ℕ)) : Option ℚ :=
  if statusCode ≠ 200 then none
  else if listingsData = [] then none
  else listingsData.foldl floorStep none

/-- One persisted `nft_data` row, restricted to the columns `save_data` reads
(line 62-68): `highest_single_bid`, `floor_price`, `num_bids`; all three are
nullable in the schema (lines 40-42). -/
structure Snapshot where
  highestSingleBid : Option ℚ
  floorPrice : Option ℚ
  numBids : Option ℤ
deriving DecidableEq

/-- Injected database behaviour for one `save_data` call: `readFail` raises in the
SELECT (lines 62-69), `insertFail` raises in the INSERT/commit (lines 112-116). -/
inductive DbMode
  | ok
  | readFail
  | insertFail
deriving DecidableEq

/-- `EPSILON = 1e-6` (line 53). -/
def EPSILON : ℚ := 1 / 1000000

/-- Python's built-in `abs` on the rational model of a float. -/
def ratAbs (q : ℚ) : ℚ := if q < 0 then -q else q

/-- The comparison of lines 91-92:
`new is not None and abs(new - existing) > EPSILON`.
Result `none` models the Python `TypeError` raised when `new` is a float and
`existing` is `None` (so `new - existing` is ill-typed). -/
def decChanged (newVal oldVal : Option ℚ) : Option Bool :=
  match newVal, oldVal with
  | none, _ => some false
  | some _, none => none
  | some n, some e => some (decide (EPSILON < ratAbs (n - e)))

/-- Zero-padded six-digit fractional rendering used by `fmt6`. -/
def pad6 (s : String) : String :=
  String.mk (List.replicate (6 - s.length) '0') ++ s

/-- Fixed six-decimal rendering, modelling Python's `f"{x:.6f}"` on the rational
model of the float (half-up rounding stands in for the float's rounding). -/
def fmt6 (q : ℚ) : String :=
  let scaled : ℤ := ⌊q * 1000000 + 1 / 2⌋
  let sign := if scaled < 0 then "-" else ""
  let n := scaled.natAbs
  sign ++ toString (n / 1000000) ++ "." ++ pad6 (toString (n % 1000000))

/-- Line 97: the change-detail entry for the highest bid. -/
def bidEntry (newBid oldBid : ℚ) : String :=
  "Highest Bid changed by " ++ fmt6 (newBid - oldBid) ++ " WETH (New: " ++
    fmt6 newBid ++ " WETH)"

/-- Line 102: the change-detail entry for the floor price. -/
def floorEntry (newFloor oldFloor : ℚ) : String :=
  "Floor Price changed by " ++ fmt6 (newFloor - oldFloor) ++ " WETH (New: " ++
    fmt6 newFloor ++ " WETH)"

/-- Line 107: the change-detail entry for the number of bids. -/
def bidsEntry (newCount oldCount : ℤ) : String :=
  "Number of Bids changed by " ++ toString (newCount - oldCount) ++ " (New: " ++
    toString newCount ++ ")"

/-- Lines 86-108 of `save_data`: given the (already normalized) existing values
and the new values, return `none` when the comparison raises a `TypeError`
(a non-null new float against a null stored value), else
`some (data_changed, change_details)`.  Line 86 treats an all-null/zero existing
state — whether from a missing row or from a stored `(NULL, NULL, 0)` row — as
the initial snapshot. -/
def detectChanges (existingBid existingFloor : Option ℚ) (existingNumBids : ℤ)
    (highestBid floorPrice : Option ℚ) (numBids : ℤ) :
    Option (Bool × List String) :=
  if existingBid = none ∧ existingFloor = none ∧ existingNumBids = 0 then
    some (true, ["Initial snapshot added."])
  else
    match decChanged highestBid existingBid, decChanged floorPrice existingFloor with
    | none, _ => none
    | some _, none => none
    | some bidChanged, some floorChanged =>
      let numBidsChanged := decide (numBids ≠ existingNumBids)
      some (bidChanged || floorChanged || numBidsChanged,
        (if bidChanged then [bidEntry (highestBid.getD 0) (existingBid.getD 0)] else []) ++
        (if floorChanged then [floorEntry (floorPrice.getD 0) (existingFloor.getD 0)] else []) ++
        (if numBidsChanged then [bidsEntry numBids existingNumBids] else []))

/-- The value of `save_data` (lines 56-124): `(data_changed, ", ".join(change_details))`
together with the row the INSERT persisted, if any.  All exceptions —
a failing SELECT, the `TypeError` of lines 91-92, or a failing INSERT — are
caught at line 121 and the current `data_changed` / `change_details` are
returned; a failing INSERT therefore still reports `data_changed = True`
although no row was persisted. -/
structure SaveResult where
  dataChanged : Bool
  changeDetails : String
  insertedRow : Option Snapshot
deriving DecidableEq

/-- `save_data(conn, collection, highest_bid, floor_price, num_bids)`
(lines 56-124).  `prior` is the most recent stored snapshot (the SELECT of
lines 62-69); unpacking with null-normalization is lines 72-83; change
detection is `detectChanges`; the conditional INSERT is lines 110-117. -/
def saveData (mode : DbMode) (prior : Option Snapshot)
    (highestBid floorPrice : Option ℚ) (numBidsIn : Option ℤ) : SaveResult :=
  if mode = DbMode.readFail then ⟨false, "", none⟩
  else
    let existingBid := prior.bind Snapshot.highestSingleBid
    let existingFloor := prior.bind Snapshot.floorPrice
    let existingNumBids : ℤ := (prior.bind Snapshot.numBids).getD 0
    let numBids : ℤ := numBidsIn.getD 0
    match detectChanges existingBid existingFloor existingNumBids highestBid floorPrice numBids with
    | none => ⟨false, "", none⟩
    | some (dataChanged, details) =>
      if dataChanged then
        ⟨true, String.intercalate ", " details,
          if mode = DbMode.insertFail then none
          else some ⟨highestBid, floorPrice, some numBids⟩⟩
      else ⟨false, "", none⟩

/-- The per-collection fetch results handed to `save_data` by `main_job`
(lines 237-238). -/
structure FetchedData where
  highestBid : Option ℚ
  numBids : Option ℤ
  floorPrice : Option ℚ
deriving DecidableEq

/-- One iteration of `main_job`'s for-loop (lines 236-247): fetch, save, and
append the collection to the changed or unchanged partition.  The database is
modelled by its latest row per collection; an inserted row (timestamped `now`)
becomes the new latest row for that collection. -/
def processCollection (mode : String → DbMode) (fetch : String → FetchedData)
    (st : (String → Option Snapshot) × List (String × String) × List String)
    (collection : String) :
    (String → Option Snapshot) × List (String × String) × List String :=
  let f := fetch collection
  let r := saveData (mode collection) (st.1 collection) f.highestBid f.floorPrice f.numBids
  let db2 : String → Option Snapshot :=
    match r.insertedRow with
    | none => st.1
    | some row => fun c => if c = collection then some row else st.1 c
  if r.dataChanged then (db2, st.2.1 ++ [(collection, r.changeDetails)], st.2.2)
  else (db2, st.2.1, st.2.2 ++ [collection])

/-- The collection loop of `main_job` (lines 233-247) over an arbitrary
collection list, returning the final database state, the changed partition
(with change details) and the unchanged partition. -/
def mainJob (mode : String → DbMode) (fetch : String → FetchedData)
    (db : String → Option Snapshot) (collections : List String) :
    (String → Option Snapshot) × List (String × String) × List String :=
  collections.foldl (processCollection mode fetch) (db, [], [])

/-- `schedule.every(1).hours` (line 271): the interval, in seconds. -/
def intervalSeconds : ℕ := 3600

/-- State of the scheduling loop: current time (seconds), the pending job's
next-run time, and how many times `main_job` has been invoked. -/
structure SchedulerState where
  time : ℕ
  nextRun : ℕ
  runCount : ℕ
deriving DecidableEq

/-- Modelled from the `schedule` library semantics (external dependency):
`schedule.every(1).hours.do(main_job)` (line 271) registers the job with
`next_run = now + interval`; it does not run the job at registration time. -/
def schedulerInit (t0 : ℕ) : SchedulerState :=
  ⟨t0, t0 + intervalSeconds, 0⟩

/-- Modelled from the `schedule` library semantics: `schedule.run_pending()`
runs the job iff `now >= next_run`, and a run re-schedules
`next_run = now + interval`. -/
def runPending (s : SchedulerState) : SchedulerState :=
  if s.nextRun ≤ s.time then ⟨s.time, s.time + intervalSeconds, s.runCount + 1⟩
  else s

/-- One iteration of the `while True` loop (lines 275-277): `run_pending()`
then `time.sleep(1)`. -/
def schedTick (s : SchedulerState) : SchedulerState :=
  let s2 := runPending s
  ⟨s2.time + 1, s2.nextRun, s2.runCount⟩

/-- The scheduler state `n` loop iterations (≈ seconds) after process start at
wall-clock time `t0`. -/
def schedulerAfter (t0 : ℕ) : ℕ → SchedulerState
  | 0 => schedulerInit t0
  | n + 1 => schedTick (schedulerAfter t0 n)

/-! ## Helper lemmas -/

theorem ratAbs_eq_abs (q : ℚ) : ratAbs q = |q| := by
  unfold ratAbs
  rcases le_or_lt 0 q with h | h
  · rw [if_neg (not_lt.mpr h), abs_of_nonneg h]
  · rw [if_pos h, abs_of_neg h]

/-- Every collection processed by the loop lands in exactly one of the two
partitions, whatever the database modes and fetch results are. -/
theorem foldl_processCollection_length (mode : String → DbMode)
    (fetch : String → FetchedData) (cols : List String) :
    ∀ st : (String → Option Snapshot) × List (String × String) × List String,
      ((cols.foldl (processCollection mode fetch) st).2.1.length +
        (cols.foldl (processCollection mode fetch) st).2.2.length) =
      st.2.1.length + st.2.2.length + cols.length := by
  induction cols with
  | nil => intro st; simp
  | cons c cs ih =>
    intro st
    rw [List.foldl_cons, ih]
    by_cases h : (saveData (mode c) (st.1 c) (fetch c).highestBid
        (fetch c).floorPrice (fetch c).numBids).dataChanged
    all_goals simp [processCollection, h]
    all_goals omega

/-- Unfolding of `save_data` when the SELECT succeeds. -/
theorem saveData_not_readFail (mode : DbMode) (prior : Option Snapshot)
    (hb fp : Option ℚ) (nb : Option ℤ) (h : mode ≠ DbMode.readFail) :
    saveData mode prior hb fp nb =
      (match detectChanges (prior.bind Snapshot.highestSingleBid)
          (prior.bind Snapshot.floorPrice) ((prior.bind Snapshot.numBids).getD 0)
          hb fp (nb.getD 0) with
      | none => ⟨false, "", none⟩
      | some (c, d) =>
        if c then
          ⟨true, String.intercalate ", " d,
            if mode = DbMode.insertFail then none
            else some ⟨hb, fp, some (nb.getD 0)⟩⟩
        else ⟨false, "", none⟩) := by
  unfold saveData
  rw [if_neg h]

/-- In `ok` mode, no inserted row means the call reported no change at all. -/
theorem saveData_ok_insertedRow_none (prior : Option Snapshot)
    (hb fp : Option ℚ) (nb : Option ℤ)
    (h : (saveData DbMode.ok prior hb fp nb).insertedRow = none) :
    saveData DbMode.ok prior hb fp nb = ⟨false, "", none⟩ := by
  rw [saveData_not_readFail _ _ _ _ _ (by simp)] at h ⊢
  rcases hD : detectChanges (prior.bind Snapshot.highestSingleBid)
      (prior.bind Snapshot.floorPrice) ((prior.bind Snapshot.numBids).getD 0)
      hb fp (nb.getD 0) with _ | ⟨c, d⟩
  · rfl
  · rw [hD] at h
    cases c with
    | true => simp at h
    | false => rfl

/-- In `ok` mode, an inserted row is exactly the new values with the
null-normalized bid count. -/
theorem saveData_ok_insertedRow_some (prior : Option Snapshot)
    (hb fp : Option ℚ) (nb : Option ℤ) (row : Snapshot)
    (h : (saveData DbMode.ok prior hb fp nb).insertedRow = some row) :
    row = ⟨hb, fp, some (nb.getD 0)⟩ := by
  rw [saveData_not_readFail _ _ _ _ _ (by simp)] at h
  rcases hD : detectChanges (prior.bind Snapshot.highestSingleBid)
      (prior.bind Snapshot.floorPrice) ((prior.bind Snapshot.numBids).getD 0)
      hb fp (nb.getD 0) with _ | ⟨c, d⟩
  · rw [hD] at h; simp at h
  · rw [hD] at h
    cases c with
    | true => simp at h; exact h.symm
    | false => simp at h

/-- A failing INSERT changes only the persisted row: the reported flag and
description are those of the successful-save run. -/
theorem saveData_insertFail_eq (prior : Option Snapshot)
    (hb fp : Option ℚ) (nb : Option ℤ) :
    (saveData DbMode.insertFail prior hb fp nb).dataChanged =
      (saveData DbMode.ok prior hb fp nb).dataChanged ∧
    (saveData DbMode.insertFail prior hb fp nb).changeDetails =
      (saveData DbMode.ok prior hb fp nb).changeDetails ∧
    (saveData DbMode.insertFail prior hb fp nb).insertedRow = none := by
  rw [saveData_not_readFail DbMode.insertFail _ _ _ _ (by simp),
    saveData_not_readFail DbMode.ok _ _ _ _ (by simp)]
  rcases hD : detectChanges (prior.bind Snapshot.highestSingleBid)
      (prior.bind Snapshot.floorPrice) ((prior.bind Snapshot.numBids).getD 0)
      hb fp (nb.getD 0) with _ | ⟨c, d⟩
  · exact ⟨rfl, rfl, rfl⟩
  · cases c with
    | true => exact ⟨rfl, rfl, rfl⟩
    | false => exact ⟨rfl, rfl, rfl⟩

/-! ## Claim theorems -/

/-- Claim C5: for every collection with no prior stored snapshot, `save_data`
always inserts an initial snapshot row holding exactly the fetched values (with
a null bid count normalized to 0) and reports a change with the fixed phrase
"Initial snapshot added." — regardless of the fetched values, including when
both decimal values are null and the count is 0. -/
theorem c5_initial_snapshot_always_inserted (hb fp : Option ℚ) (nb : Option ℤ) :
    saveData DbMode.ok none hb fp nb =
      ⟨true, "Initial snapshot added.", some ⟨hb, fp, some (nb.getD 0)⟩⟩ := by
  rfl

/-- Claim C1 (amended): every database exception raised inside `save_data` is
caught, and the orchestrator's loop always processes every collection into one
of the two partitions.  An exception during the SELECT makes the call return
`(false, "")` with nothing inserted; an exception during the INSERT persists
nothing but still returns the already-computed change flag (and description),
so a collection whose INSERT failed is reported as changed, not unchanged. -/
theorem c1_db_errors_caught (prior : Option Snapshot) (hb fp : Option ℚ)
    (nb : Option ℤ) :
    saveData DbMode.readFail prior hb fp nb = ⟨false, "", none⟩
    ∧ (saveData DbMode.insertFail prior hb fp nb).insertedRow = none
    ∧ (saveData DbMode.insertFail prior hb fp nb).dataChanged =
        (saveData DbMode.ok prior hb fp nb).dataChanged
    ∧ ∀ (mode : String → DbMode) (fetch : String → FetchedData)
        (db : String → Option Snapshot) (cols : List String),
        (mainJob mode fetch db cols).2.1.length +
          (mainJob mode fetch db cols).2.2.length = cols.length := by
  refine ⟨rfl, (saveData_insertFail_eq prior hb fp nb).2.2,
    (saveData_insertFail_eq prior hb fp nb).1, ?_⟩
  intro mo fetch db cols
  unfold mainJob
  rw [foldl_processCollection_length]
  simp

/-- Claim C1 counterexample: an exception during the INSERT does not make
`save_data` return `(false, "")`.  With prior snapshot `(1, 1, 5)` and new
values `(2, 1, 5)`, a failing INSERT returns `data_changed = True` and a
non-empty description (while persisting nothing). -/
theorem c1_counterexample :
    saveData DbMode.insertFail (some ⟨some 1, some 1, some 5⟩)
        (some 2) (some 1) (some 5) =
      ⟨true, "Highest Bid changed by 1.000000 WETH (New: 2.000000 WETH)", none⟩ := by
  with_unfolding_all decide

/-- Comparing a value against itself never detects a change (and never raises):
the fold of lines 91-93 on identical old/new values yields no change entries. -/
theorem detectChanges_self (hb fp : Option ℚ) (n : ℤ)
    (h : ¬(hb = none ∧ fp = none ∧ n = 0)) :
    detectChanges hb fp n hb fp n = some (false, []) := by
  have hself : ∀ v : Option ℚ, decChanged v v = some false := by
    intro v
    cases v with
    | none => rfl
    | some b =>
      simp only [decChanged]
      have hle : ¬(EPSILON < ratAbs (b - b)) := by
        rw [sub_self]
        unfold ratAbs EPSILON
        norm_num
      rw [decide_eq_false hle]
  unfold detectChanges
  rw [if_neg h, hself hb, hself fp]
  simp

/-- Saving fetched values identical to the stored snapshot (and not all
null/zero) inserts nothing and returns `(false, "")`. -/
theorem saveData_ok_stored_eq (hb fp : Option ℚ) (nb : Option ℤ)
    (h : ¬(hb = none ∧ fp = none ∧ nb.getD 0 = 0)) :
    saveData DbMode.ok (some ⟨hb, fp, some (nb.getD 0)⟩) hb fp nb =
      ⟨false, "", none⟩ := by
  rw [saveData_not_readFail _ _ _ _ _ (by simp)]
  simp only [Option.some_bind, Option.getD_some]
  rw [detectChanges_self hb fp (nb.getD 0) h]
  rfl

/-- A second `ok`-mode save with the same fetched values, against the database
state left by the first save, inserts nothing and returns `(false, "")`. -/
theorem saveData_ok_round2 (prior : Option Snapshot) (hb fp : Option ℚ)
    (nb : Option ℤ) (h : ¬(hb = none ∧ fp = none ∧ nb.getD 0 = 0)) :
    saveData DbMode.ok
      (match (saveData DbMode.ok prior hb fp nb).insertedRow with
        | none => prior
        | some row => some row) hb fp nb = ⟨false, "", none⟩ := by
  rcases hr : (saveData DbMode.ok prior hb fp nb).insertedRow with _ | row
  · exact saveData_ok_insertedRow_none prior hb fp nb hr
  · rw [saveData_ok_insertedRow_some prior hb fp nb row hr]
    exact saveData_ok_stored_eq hb fp nb h

/-- Processing one collection never touches another collection's latest row. -/
theorem processCollection_db_other (mode : String → DbMode)
    (fetch : String → FetchedData)
    (st : (String → Option Snapshot) × List (String × String) × List String)
    (col c : String) (h : c ≠ col) :
    (processCollection mode fetch st col).1 c = st.1 c := by
  simp only [processCollection]
  rcases hr : (saveData (mode col) (st.1 col) (fetch col).highestBid
      (fetch col).floorPrice (fetch col).numBids).insertedRow with _ | row
  · split <;> rfl
  · split <;> simp [h]

/-- The loop never touches the latest row of a collection outside the list. -/
theorem foldl_process_db_not_mem (mode : String → DbMode)
    (fetch : String → FetchedData) (cols : List String) :
    ∀ (st : (String → Option Snapshot) × List (String × String) × List String)
      (c : String), c ∉ cols →
      (cols.foldl (processCollection mode fetch) st).1 c = st.1 c := by
  induction cols with
  | nil => intro st c _; rfl
  | cons col cs ih =>
    intro st c hc
    rw [List.foldl_cons, ih _ c (fun hmem => hc (List.mem_cons_of_mem _ hmem))]
    exact processCollection_db_other mode fetch st col c
      (fun he => hc (he ▸ List.mem_cons_self _ _))

/-- Processing a collection leaves its latest row equal to the inserted row if
the save inserted one, and unchanged otherwise. -/
theorem processCollection_db_self (mode : String → DbMode)
    (fetch : String → FetchedData)
    (st : (String → Option Snapshot) × List (String × String) × List String)
    (col : String) :
    (processCollection mode fetch st col).1 col =
      (match (saveData (mode col) (st.1 col) (fetch col).highestBid
          (fetch col).floorPrice (fetch col).numBids).insertedRow with
        | none => st.1 col
        | some row => some row) := by
  simp only [processCollection]
  rcases hr : (saveData (mode col) (st.1 col) (fetch col).highestBid
      (fetch col).floorPrice (fetch col).numBids).insertedRow with _ | row
  · split <;> rfl
  · split <;> simp

/-- After one full `ok`-mode pass, every listed collection's latest row is
stable: saving the same fetched values again yields `(false, "")`, provided the
fetched values are not all null/zero. -/
theorem foldl_process_stable (fetch : String → FetchedData) :
    ∀ (cols : List String)
      (st : (String → Option Snapshot) × List (String × String) × List String),
      (∀ c ∈ cols, ¬((fetch c).highestBid = none ∧ (fetch c).floorPrice = none ∧
        ((fetch c).numBids).getD 0 = 0)) →
      ∀ c ∈ cols,
        saveData DbMode.ok
          ((cols.foldl (processCollection (fun _ => DbMode.ok) fetch) st).1 c)
          (fetch c).highestBid (fetch c).floorPrice (fetch c).numBids =
        ⟨false, "", none⟩ := by
  intro cols
  induction cols with
  | nil => intro st _ c hc; exact absurd hc (List.not_mem_nil c)
  | cons col cs ih =>
    intro st hnull c hc
    rw [List.foldl_cons]
    by_cases hmem : c ∈ cs
    · exact ih _ (fun x hx => hnull x (List.mem_cons_of_mem _ hx)) c hmem
    · have hceq : c = col := by
        rcases List.mem_cons.mp hc with he | hm
        · exact he
        · exact absurd hm hmem
      subst hceq
      rw [foldl_process_db_not_mem _ _ _ _ c hmem, processCollection_db_self]
      exact saveData_ok_round2 (st.1 c) (fetch c).highestBid (fetch c).floorPrice
        (fetch c).numBids (hnull c hc)

/-- Running the loop over a database in which every listed collection is
already stable changes nothing: no inserts, no changed collections, and every
collection is appended to the unchanged partition. -/
theorem foldl_process_of_stable (fetch : String → FetchedData) :
    ∀ (cols : List String)
      (st : (String → Option Snapshot) × List (String × String) × List String),
      (∀ c ∈ cols,
        saveData DbMode.ok (st.1 c) (fetch c).highestBid (fetch c).floorPrice
          (fetch c).numBids = ⟨false, "", none⟩) →
      cols.foldl (processCollection (fun _ => DbMode.ok) fetch) st =
        (st.1, st.2.1, st.2.2 ++ cols) := by
  intro cols
  induction cols with
  | nil => intro st _; simp
  | cons col cs ih =>
    intro st hstable
    rw [List.foldl_cons]
    have hstep : processCollection (fun _ => DbMode.ok) fetch st col =
        (st.1, st.2.1, st.2.2 ++ [col]) := by
      simp only [processCollection]
      rw [hstable col (List.mem_cons_self _ _)]
      rfl
    rw [hstep, ih (st.1, st.2.1, st.2.2 ++ [col])
      (fun x hx => hstable x (List.mem_cons_of_mem _ hx))]
    simp

/-- Claim C2 (amended): re-saving fetched values that are already exactly the
most recent stored snapshot inserts no new row and returns `(false, "")`, and a
second orchestrator run over the same fetched data inserts nothing and reports
every collection as unchanged — provided the fetched triple is not
all-null-with-zero-count.  (A stored `(NULL, NULL, 0)` row is indistinguishable
from "no prior snapshot" at line 86, so that triple re-inserts on every run.) -/
theorem c2_second_run_unchanged :
    (∀ (hb fp : Option ℚ) (nb : Option ℤ),
      ¬(hb = none ∧ fp = none ∧ nb.getD 0 = 0) →
      saveData DbMode.ok (some ⟨hb, fp, some (nb.getD 0)⟩) hb fp nb =
        ⟨false, "", none⟩)
    ∧ ∀ (fetch : String → FetchedData) (db : String → Option Snapshot)
        (cols : List String),
        (∀ c ∈ cols, ¬((fetch c).highestBid = none ∧ (fetch c).floorPrice = none ∧
          ((fetch c).numBids).getD 0 = 0)) →
        mainJob (fun _ => DbMode.ok) fetch
            (mainJob (fun _ => DbMode.ok) fetch db cols).1 cols =
          ((mainJob (fun _ => DbMode.ok) fetch db cols).1, [], cols) := by
  refine ⟨saveData_ok_stored_eq, ?_⟩
  intro fetch db cols hnull
  unfold mainJob
  rw [foldl_process_of_stable fetch cols
    ((List.foldl (processCollection (fun _ => DbMode.ok) fetch) (db, [], []) cols).1, [], [])
    (fun c hc => foldl_process_stable fetch cols (db, [], []) hnull c hc)]
  simp

/-- Claim C2 counterexample: for the all-null fetched triple the claim fails.
A first save against an empty history inserts the row `(NULL, NULL, 0)`; a
second save whose fetched values match that stored row exactly inserts another
row and returns `(true, "Initial snapshot added.")` instead of `(false, "")`. -/
theorem c2_counterexample :
    saveData DbMode.ok none none none none =
      ⟨true, "Initial snapshot added.", some ⟨none, none, some 0⟩⟩
    ∧ saveData DbMode.ok (some ⟨none, none, some 0⟩) none none none =
      ⟨true, "Initial snapshot added.", some ⟨none, none, some 0⟩⟩ :=
  ⟨rfl, rfl⟩

/-- Witness for C2: concrete non-all-null values, at the save level and across
two orchestrator runs over one collection. -/
theorem c2_second_run_unchanged_witness :
    saveData DbMode.ok (some ⟨some 1, none, some 3⟩) (some 1) none (some 3) =
      ⟨false, "", none⟩
    ∧ mainJob (fun _ => DbMode.ok) (fun _ => ⟨some 1, some 3, none⟩)
        (mainJob (fun _ => DbMode.ok) (fun _ => ⟨some 1, some 3, none⟩)
          (fun _ => none) ["pridepunks2018"]).1 ["pridepunks2018"] =
      ((mainJob (fun _ => DbMode.ok) (fun _ => ⟨some 1, some 3, none⟩)
          (fun _ => none) ["pridepunks2018"]).1, [], ["pridepunks2018"]) :=
  ⟨c2_second_run_unchanged.1 (some 1) none (some 3) (by decide),
   c2_second_run_unchanged.2 (fun _ => ⟨some 1, some 3, none⟩) (fun _ => none)
     ["pridepunks2018"] (by decide)⟩

/-- Claim C9: when the most recent stored snapshot has a null highest-bid (or
null floor-price) while the snapshot is not all-null-with-zero-count, and the
corresponding new fetched value is non-null, the comparison at line 91/92
raises a `TypeError`; it is caught, nothing is inserted, and the call returns
`(false, "")` — the non-null new value is not recorded on that run. -/
theorem c9_null_stored_typeerror (s : Snapshot) (hb fp : Option ℚ)
    (nb : Option ℤ)
    (hprior : ¬(s.highestSingleBid = none ∧ s.floorPrice = none ∧
      s.numBids.getD 0 = 0))
    (hnull : (s.highestSingleBid = none ∧ hb ≠ none) ∨
      (s.floorPrice = none ∧ fp ≠ none)) :
    saveData DbMode.ok (some s) hb fp nb = ⟨false, "", none⟩ := by
  rw [saveData_not_readFail _ _ _ _ _ (by simp)]
  simp only [Option.some_bind]
  have hD : detectChanges s.highestSingleBid s.floorPrice (s.numBids.getD 0)
      hb fp (nb.getD 0) = none := by
    unfold detectChanges
    rw [if_neg hprior]
    rcases hnull with ⟨hsb, hhb⟩ | ⟨hsf, hfp⟩
    · rcases hb with _ | b
      · exact absurd rfl hhb
      · rw [hsb]; rfl
    · rcases fp with _ | f
      · exact absurd rfl hfp
      · rw [hsf]
        rcases hbc : decChanged hb s.highestSingleBid with _ | bc
        · rfl
        · rfl
  rw [hD]

/-- Witness for C9: stored snapshot `(NULL, 2, 5)` with a new non-null bid 1. -/
theorem c9_null_stored_typeerror_witness :
    (¬(((⟨none, some 2, some 5⟩ : Snapshot)).highestSingleBid = none ∧
        ((⟨none, some 2, some 5⟩ : Snapshot)).floorPrice = none ∧
        ((⟨none, some 2, some 5⟩ : Snapshot)).numBids.getD 0 = 0))
    ∧ saveData DbMode.ok (some ⟨none, some 2, some 5⟩) (some 1) none (some 5) =
        ⟨false, "", none⟩ :=
  ⟨by decide,
   c9_null_stored_typeerror ⟨none, some 2, some 5⟩ (some 1) none (some 5)
     (by decide) (Or.inl ⟨rfl, by decide⟩)⟩

/-- The decimal-field comparison of lines 91-92 against a non-null stored value
reports a change exactly when the new value is non-null and differs from the
stored value by more than `EPSILON`. -/
theorem decChanged_some_iff (v : Option ℚ) (e : ℚ) :
    decChanged v (some e) = some true ↔ ∃ x, v = some x ∧ EPSILON < |x - e| := by
  cases v with
  | none => simp [decChanged]
  | some x => simp [decChanged, ratAbs_eq_abs]

/-- Claim C4 (amended): when the prior snapshot's stored decimal fields are
both non-null, each decimal field is deemed changed exactly when the new value
is non-null and differs from the stored value by more than `EPSILON = 1e-6`
(a null new value never triggers a change), the bid count is deemed changed
exactly when the null-normalized new count differs from the stored count, and
a new row is inserted if and only if at least one field changed.  With a null
stored decimal this rule fails: an all-null/zero stored row always inserts
(initial-snapshot branch), and a null stored decimal together with a non-null
new value aborts the save via `TypeError` with no insert even when the count
changed. -/
theorem c4_change_detection (eb ef : ℚ) (en : Option ℤ) (hb fp : Option ℚ)
    (nb : Option ℤ) :
    (decChanged hb (some eb) = some true ↔ ∃ b, hb = some b ∧ EPSILON < |b - eb|)
    ∧ (decChanged fp (some ef) = some true ↔ ∃ f, fp = some f ∧ EPSILON < |f - ef|)
    ∧ ((saveData DbMode.ok (some ⟨some eb, some ef, en⟩) hb fp nb).insertedRow.isSome ↔
        ((∃ b, hb = some b ∧ EPSILON < |b - eb|) ∨
         (∃ f, fp = some f ∧ EPSILON < |f - ef|) ∨
         nb.getD 0 ≠ en.getD 0)) := by
  refine ⟨decChanged_some_iff hb eb, decChanged_some_iff fp ef, ?_⟩
  rw [saveData_not_readFail _ _ _ _ _ (by simp)]
  simp only [Option.some_bind, Option.getD_some]
  rw [← decChanged_some_iff hb eb, ← decChanged_some_iff fp ef]
  obtain ⟨bc, hbc⟩ : ∃ bc, decChanged hb (some eb) = some bc := by
    cases hb
    · exact ⟨false, rfl⟩
    · exact ⟨_, rfl⟩
  obtain ⟨fc, hfc⟩ : ∃ fc, decChanged fp (some ef) = some fc := by
    cases fp
    · exact ⟨false, rfl⟩
    · exact ⟨_, rfl⟩
  unfold detectChanges
  rw [if_neg (by simp), hbc, hfc]
  simp only [Option.some_inj]
  by_cases hn : nb.getD 0 = en.getD 0
  · cases bc <;> cases fc <;> simp [hn]
  · cases bc <;> cases fc <;> simp [hn]

/-- Claim C4 counterexample: two reachable priors where the claimed rule fails.
With stored `(NULL, 2, 0)` and new values `(1, 2, 3)` the bid count changed
(3 ≠ 0), yet the `TypeError` at line 91 aborts the save and nothing is
inserted; with a stored `(NULL, NULL, 0)` row and new values `(None, None, 0)`
no field changed by the claimed comparisons, yet a row is inserted. -/
theorem c4_counterexample :
    saveData DbMode.ok (some ⟨none, some 2, some 0⟩) (some 1) (some 2) (some 3) =
      ⟨false, "", none⟩
    ∧ (saveData DbMode.ok (some ⟨none, none, some 0⟩)
        none none none).insertedRow.isSome = true := by
  with_unfolding_all decide

/-- Claim C8 (amended): whenever `save_data` records a change against a prior
snapshot other than the all-null/zero row, the returned description lists
exactly the entries of the fields deemed changed — in the fixed order bid,
floor, count, formatted by `bidEntry`/`floorEntry`/`bidsEntry` — joined by
`", "`.  When no prior snapshot exists, and likewise when the prior row is the
all-null/zero row (which line 86 cannot tell apart from a missing row), the
description is instead the single fixed phrase. -/
theorem c8_change_description (s : Snapshot) (hb fp : Option ℚ)
    (nb : Option ℤ) :
    (¬(s.highestSingleBid = none ∧ s.floorPrice = none ∧ s.numBids.getD 0 = 0) →
      (saveData DbMode.ok (some s) hb fp nb).dataChanged = true →
      (saveData DbMode.ok (some s) hb fp nb).changeDetails =
        String.intercalate ", "
          ((if decChanged hb s.highestSingleBid = some true then
              [bidEntry (hb.getD 0) (s.highestSingleBid.getD 0)] else []) ++
           (if decChanged fp s.floorPrice = some true then
              [floorEntry (fp.getD 0) (s.floorPrice.getD 0)] else []) ++
           (if nb.getD 0 ≠ s.numBids.getD 0 then
              [bidsEntry (nb.getD 0) (s.numBids.getD 0)] else [])))
    ∧ (saveData DbMode.ok none hb fp nb).changeDetails = "Initial snapshot added."
    ∧ ((s.highestSingleBid = none ∧ s.floorPrice = none ∧ s.numBids.getD 0 = 0) →
      (saveData DbMode.ok (some s) hb fp nb).changeDetails =
        "Initial snapshot added.") := by
  refine ⟨?_, rfl, ?_⟩
  · intro hni hch
    rw [saveData_not_readFail _ _ _ _ _ (by simp)] at hch ⊢
    simp only [Option.some_bind] at hch ⊢
    unfold detectChanges at hch ⊢
    rw [if_neg hni] at hch ⊢
    rcases hbc : decChanged hb s.highestSingleBid with _ | bc
    · rw [hbc] at hch
      simp at hch
    · rw [hbc] at hch
      rcases hfc : decChanged fp s.floorPrice with _ | fc
      · rw [hfc] at hch
        simp at hch
      · rw [hfc] at hch
        by_cases hn : nb.getD 0 = s.numBids.getD 0
        · cases bc <;> cases fc <;> simp [hn] at hch ⊢
        · cases bc <;> cases fc <;> simp [hn] at hch ⊢
  · intro h
    rw [saveData_not_readFail _ _ _ _ _ (by simp)]
    simp only [Option.some_bind]
    unfold detectChanges
    rw [if_pos h]
    rfl

/-- Claim C8 counterexample: with the reachable stored row `(NULL, NULL, 0)` —
an existing prior snapshot — and new values `(5, None, 3)`, a change is
recorded against that prior but the description is the fixed initial-snapshot
phrase, not the list of changed-field entries. -/
theorem c8_counterexample :
    (saveData DbMode.ok (some ⟨none, none, some 0⟩)
        (some 5) none (some 3)).dataChanged = true
    ∧ (saveData DbMode.ok (some ⟨none, none, some 0⟩)
        (some 5) none (some 3)).changeDetails = "Initial snapshot added." := by
  with_unfolding_all decide

/-- Witness for C8: stored `(NULL, 2, 5)` with new values `(None, 3, 5)` — only
the floor changed, and the description is that single floor entry; and the
all-null/zero stored row yields the fixed phrase. -/
theorem c8_change_description_witness :
    (saveData DbMode.ok (some ⟨none, some 2, some 5⟩)
        none (some 3) (some 5)).dataChanged = true
    ∧ (saveData DbMode.ok (some ⟨none, some 2, some 5⟩)
        none (some 3) (some 5)).changeDetails =
        "Floor Price changed by 1.000000 WETH (New: 3.000000 WETH)"
    ∧ (saveData DbMode.ok (some ⟨none, none, some 0⟩)
        (some 5) none (some 3)).changeDetails = "Initial snapshot added." := by
  refine ⟨by with_unfolding_all decide, ?_, ?_⟩
  · have h := (c8_change_description ⟨none, some 2, some 5⟩ none (some 3)
      (some 5)).1 (by decide) (by with_unfolding_all decide)
    rw [h]
    with_unfolding_all decide
  · exact (c8_change_description ⟨none, none, some 0⟩ (some 5) none
      (some 3)).2.2 (by decide)

/-- The bid fold of lines 148-163 never moves off an accumulator that already
dominates every remaining per-item value (strict `>` comparison). -/
theorem foldl_bidStep_of_le :
    ∀ (l : List Offer) (acc : ℚ × ℕ), (∀ o ∈ l, perItemBid o ≤ acc.1) →
      l.foldl bidStep acc = acc := by
  intro l
  induction l with
  | nil => intro acc _; rfl
  | cons o rest ih =>
    intro acc h
    rw [List.foldl_cons]
    have hstep : bidStep acc o = acc := by
      unfold bidStep
      rw [if_neg (not_lt.mpr (h o (List.mem_cons_self _ _)))]
    rw [hstep]
    exact ih acc (fun x hx => h x (List.mem_cons_of_mem _ hx))

/-- The bid fold of lines 148-163 returns the maximum per-item value together
with the consideration count of the *first* offer attaining it, whenever the
maximum strictly exceeds the starting accumulator. -/
theorem foldl_bidStep_max :
    ∀ (l : List Offer) (acc : ℚ × ℕ) (m : ℚ) (o : Offer), acc.1 < m →
      (∀ x ∈ l, perItemBid x ≤ m) →
      l.find? (fun x => decide (perItemBid x = m)) = some o →
      l.foldl bidStep acc = (m, o.considerationCount) := by
  intro l
  induction l with
  | nil => intro acc m o _ _ hfind; simp at hfind
  | cons x rest ih =>
    intro acc m o hacc hub hfind
    rw [List.foldl_cons]
    by_cases hx : perItemBid x = m
    · rw [List.find?_cons_of_pos _ (by simp [hx])] at hfind
      injection hfind with ho
      subst ho
      have hstep : bidStep acc x = (m, x.considerationCount) := by
        unfold bidStep
        rw [hx, if_pos hacc]
      rw [hstep]
      exact foldl_bidStep_of_le rest (m, x.considerationCount)
        (fun y hy => hub y (List.mem_cons_of_mem _ hy))
    · rw [List.find?_cons_of_neg _ (by simp [hx])] at hfind
      have hxlt : perItemBid x < m :=
        lt_of_le_of_ne (hub x (List.mem_cons_self _ _)) hx
      have hub' : ∀ y ∈ rest, perItemBid y ≤ m :=
        fun y hy => hub y (List.mem_cons_of_mem _ hy)
      unfold bidStep
      by_cases himp : acc.1 < perItemBid x
      · rw [if_pos himp]
        exact ih (perItemBid x, x.considerationCount) m o hxlt hub' hfind
      · rw [if_neg himp]
        exact ih acc m o hacc hub' hfind

/-- The floor fold of lines 184-190 skips every listing without a usable
price. -/
theorem foldl_floorStep_of_none :
    ∀ (l : List (Option ℕ)) (acc : Option ℚ), (∀ p ∈ l, p = none) →
      l.foldl floorStep acc = acc := by
  intro l
  induction l with
  | nil => intro acc _; rfl
  | cons p rest ih =>
    intro acc h
    rw [List.foldl_cons, h p (List.mem_cons_self _ _)]
    exact ih acc (fun x hx => h x (List.mem_cons_of_mem _ hx))

/-- Claim C6: a non-success HTTP status or an empty offer list makes the
highest-single-bid fetch return `(None, 0)`, and a non-success status or a
listing list without a single usable price makes the floor-price fetch return
`None`; both functions are total, so no exception reaches the caller. -/
theorem c6_fetch_failures_degrade (status : ℕ) (offers : List Offer)
    (listings : List (Option ℕ)) :
    (status ≠ 200 → getHighestSingleBidAndCount status offers = (none, 0))
    ∧ (offers = [] → getHighestSingleBidAndCount status offers = (none, 0))
    ∧ (status ≠ 200 → getFloorPrice status listings = none)
    ∧ ((∀ p ∈ listings, p = none) → getFloorPrice status listings = none) := by
  refine ⟨?_, ?_, ?_, ?_⟩
  · intro h
    unfold getHighestSingleBidAndCount
    rw [if_pos h]
  · intro h
    subst h
    unfold getHighestSingleBidAndCount
    split
    · rfl
    · rfl
  · intro h
    unfold getFloorPrice
    rw [if_pos h]
  · intro h
    unfold getFloorPrice
    split
    · rfl
    · split
      · rfl
      · exact foldl_floorStep_of_none listings none h

/-- Witness for C6: status 500 with one offer; status 200 with no offers; and
two listings both missing the current-price field. -/
theorem c6_fetch_failures_degrade_witness :
    getHighestSingleBidAndCount 500 [⟨10, 1⟩] = (none, 0)
    ∧ getHighestSingleBidAndCount 200 [] = (none, 0)
    ∧ getFloorPrice 500 [some 7] = none
    ∧ getFloorPrice 200 [none, none] = none :=
  ⟨(c6_fetch_failures_degrade 500 [⟨10, 1⟩] []).1 (by decide),
   (c6_fetch_failures_degrade 200 [] []).2.1 rfl,
   (c6_fetch_failures_degrade 500 [] [some 7]).2.2.1 (by decide),
   (c6_fetch_failures_degrade 200 [] [none, none]).2.2.2 (by decide)⟩

/-- Claim C7 counterexample: when every offer's per-item value is 0 the fold
never fires, so the returned count is the initial accumulator 0 and not the
consideration count (3) of the offer that attains the per-item maximum 0. -/
theorem c7_counterexample :
    getHighestSingleBidAndCount 200 [⟨0, 3⟩] = (some 0, 0)
    ∧ perItemBid ⟨0, 3⟩ = 0
    ∧ Offer.considerationCount ⟨0, 3⟩ = 3 := by
  with_unfolding_all decide

/-- Claim C7 (amended): each offer's per-item bid is the normalized start
amount divided by its consideration count when that count is positive
(otherwise the undivided normalized amount); and whenever the maximum per-item
value `m` over a list of offers is positive, the fetch returns `m` paired with
the consideration count of the earliest offer attaining `m` (in particular, for
per-item 1.0 backed by 3 units versus per-item 1.2 backed by 1 unit it returns
`(1.2, 1)`).  When no offer's per-item value is positive the returned count is
the initial accumulator 0 instead. -/
theorem c7_per_item_max (offers : List Offer) (m : ℚ) (o : Offer)
    (hm : 0 < m) (hub : ∀ x ∈ offers, perItemBid x ≤ m)
    (hfind : offers.find? (fun x => decide (perItemBid x = m)) = some o) :
    getHighestSingleBidAndCount 200 offers = (some m, o.considerationCount)
    ∧ perItemBid o = m
    ∧ (∀ x : Offer, perItemBid x =
        if 0 < x.considerationCount then
          weiToWeth x.startAmount / (x.considerationCount : ℚ)
        else weiToWeth x.startAmount) := by
  have hne : offers ≠ [] := by
    intro he
    rw [he] at hfind
    simp at hfind
  have hfold : offers.foldl bidStep (0, 0) = (m, o.considerationCount) :=
    foldl_bidStep_max offers (0, 0) m o hm hub hfind
  refine ⟨?_, ?_, fun x => rfl⟩
  · unfold getHighestSingleBidAndCount
    rw [if_neg (by simp), if_neg hne, hfold]
  · have := List.find?_some hfind
    simpa using this

/-- Witness for C7: offer A has per-item value 1 backed by 3 consideration
units, offer B has per-item value 6/5 backed by 1 unit; the result is
`(6/5, 1)`. -/
theorem c7_per_item_max_witness :
    getHighestSingleBidAndCount 200
        [⟨3000000000000000000, 3⟩, ⟨1200000000000000000, 1⟩] =
      (some (6/5), 1)
    ∧ perItemBid ⟨1200000000000000000, 1⟩ = 6/5 := by
  have h := c7_per_item_max
    [⟨3000000000000000000, 3⟩, ⟨1200000000000000000, 1⟩]
    (6/5) ⟨1200000000000000000, 1⟩ (by norm_num)
    (by norm_num [List.forall_mem_cons, perItemBid, weiToWeth])
    (by norm_num [List.find?, perItemBid, weiToWeth])
  exact ⟨h.1, h.2.1⟩

/-- Claim C10: for a successful fetch over a non-empty offer list the bid value
is always numeric (`some`); when no per-item value exceeds 0 the result is
`(0, 0)` — distinct from the `(None, 0)` of the no-offers case; and on ties the
count returned is that of the earliest offer attaining the maximum. -/
theorem c10_nonempty_numeric (offers : List Offer) (m : ℚ) (o : Offer) :
    (offers ≠ [] → (getHighestSingleBidAndCount 200 offers).1 ≠ none)
    ∧ ((offers ≠ [] ∧ ∀ x ∈ offers, perItemBid x ≤ 0) →
        getHighestSingleBidAndCount 200 offers = (some 0, 0))
    ∧ ((0 < m ∧ (∀ x ∈ offers, perItemBid x ≤ m) ∧
        offers.find? (fun x => decide (perItemBid x = m)) = some o) →
        (getHighestSingleBidAndCount 200 offers).2 = o.considerationCount) := by
  refine ⟨?_, ?_, ?_⟩
  · intro hne
    unfold getHighestSingleBidAndCount
    rw [if_neg (by simp), if_neg hne]
    simp
  · rintro ⟨hne, hle⟩
    unfold getHighestSingleBidAndCount
    rw [if_neg (by simp), if_neg hne,
      foldl_bidStep_of_le offers (0, 0) hle]
  · rintro ⟨hm, hub, hfind⟩
    have hne : offers ≠ [] := by
      intro he
      rw [he] at hfind
      simp at hfind
    unfold getHighestSingleBidAndCount
    rw [if_neg (by simp), if_neg hne,
      foldl_bidStep_max offers (0, 0) m o hm hub hfind]

/-- Witness for C10: a single all-zero offer for the first two parts, and a
two-way per-item tie (counts 2 and 1) resolved to the earliest count 2 for the
third. -/
theorem c10_nonempty_numeric_witness :
    (getHighestSingleBidAndCount 200 [⟨0, 2⟩]).1 ≠ none
    ∧ getHighestSingleBidAndCount 200 [⟨0, 2⟩] = (some 0, 0)
    ∧ (getHighestSingleBidAndCount 200
        [⟨2000000000000000000, 2⟩, ⟨1000000000000000000, 1⟩]).2 = 2 :=
  ⟨(c10_nonempty_numeric [⟨0, 2⟩] 1 ⟨0, 2⟩).1 (by decide),
   (c10_nonempty_numeric [⟨0, 2⟩] 1 ⟨0, 2⟩).2.1
     ⟨by decide, by norm_num [List.forall_mem_cons, perItemBid, weiToWeth]⟩,
   (c10_nonempty_numeric [⟨2000000000000000000, 2⟩, ⟨1000000000000000000, 1⟩]
      1 ⟨2000000000000000000, 2⟩).2.2
     ⟨by norm_num,
      by norm_num [List.forall_mem_cons, perItemBid, weiToWeth],
      by norm_num [List.find?, perItemBid, weiToWeth]⟩⟩

/-- Closed form of the scheduling loop: after `n` seconds the job has run
`(n - 1) / 3600` times and the pending job fires next at the start of the
following hour boundary. -/
theorem schedulerAfter_closed (t0 : ℕ) : ∀ n : ℕ,
    schedulerAfter t0 n =
      ⟨t0 + n, t0 + intervalSeconds * ((n - 1) / intervalSeconds + 1),
        (n - 1) / intervalSeconds⟩ := by
  intro n
  induction n with
  | zero =>
    simp [schedulerAfter, schedulerInit, intervalSeconds]
  | succ n ih =>
    have hstep : schedulerAfter t0 (n + 1) = schedTick (schedulerAfter t0 n) := rfl
    rw [hstep, ih]
    unfold schedTick runPending intervalSeconds
    dsimp only
    by_cases hc : t0 + 3600 * ((n - 1) / 3600 + 1) ≤ t0 + n
    · rw [if_pos hc]
      simp only [SchedulerState.mk.injEq]
      omega
    · rw [if_neg hc]
      simp only [SchedulerState.mk.injEq]
      omega

/-- Claim C3 (amended): the scheduler performs no invocation at process start;
the orchestrator first runs one full interval (3600 s) after start and then
once per interval, so after `n` loop seconds it has been invoked exactly
`(n - 1) / 3600` times.  Invocations are sequential by construction (the
single-threaded `run_pending` loop), so they never overlap. -/
theorem c3_first_run_after_interval (t0 n : ℕ) :
    (schedulerAfter t0 n).runCount = (n - 1) / intervalSeconds := by
  rw [schedulerAfter_closed]

/-- Claim C3 counterexample: the orchestrator is not invoked immediately at
process start — one minute in (and even a full hour in) nothing has run; the
first invocation happens only at second 3601. -/
theorem c3_counterexample :
    (schedulerAfter 0 60).runCount = 0
    ∧ (schedulerAfter 0 3600).runCount = 0
    ∧ (schedulerAfter 0 3601).runCount = 1 := by
  simp only [schedulerAfter_closed]
  exact ⟨rfl, rfl, rfl⟩
